import Mathlib

set_option maxRecDepth 16384

/-!
A shallow embedding of the aggregation core of the `ebooks_library` package
(`core.py`, `models.py`, `platforms/base.py` and the five platform adapters),
together with theorems settling the specification claims about it.

Python strings are modelled as `List Char` (Python `str` is a sequence of
Unicode code points); byte lengths under UTF-8 are computed with
`Char.utf8Size`.  Network responses, the wrapped third-party clients and the
standard library helpers (`urljoin`, `datetime.fromisoformat`) are external
collaborators: they enter the model as explicit environment values or function
parameters.  A Python function that may raise is modelled as an `Except`;
an adapter-specific raise site gets its own error constructor.
-/

/-! ## Python text primitives -/

/-- UTF-8 byte length of a Python string, `len(s.encode('utf-8'))`. -/
def utf8Len (l : List Char) : Nat := (l.map Char.utf8Size).sum

/-- The ASCII whitespace characters stripped by Python `str.strip()`
(the queries exercised by the library are ASCII; the full Unicode whitespace
set only widens the same behaviour). -/
def pyIsSpace (c : Char) : Bool :=
  c = ' ' || c = '\t' || c = '\n' || c = '\r' || c = '\x0b' || c = '\x0c'

/-- Python `str.strip()`: removes leading and trailing whitespace. -/
def pyStrip (l : List Char) : List Char :=
  ((l.dropWhile pyIsSpace).reverse.dropWhile pyIsSpace).reverse

/-- Truthiness of an optional Python string: `None` and `""` are falsy. -/
def pyTruthy (o : Option (List Char)) : Bool :=
  match o with
  | some s => s ≠ []
  | none => false

/-- Python `a or b` for an optional string `a` with fallback `b`. -/
def pyOrStr (o : Option (List Char)) (d : List Char) : List Char :=
  match o with
  | some s => if s = [] then d else s
  | none => d

/-- Python `needle in hay` on strings. -/
def hasSubstring (hay needle : List Char) : Bool := decide (needle <:+: hay)

/-- Python `str(n)` for an integer. -/
def intChars (n : Int) : List Char := (toString n).data

/-! ## Data model (`models.py`) -/

/-- `Platform`: the closed enumeration of the five backing services. -/
inductive Platform
  | calibre_web
  | zlibrary
  | archive_org
  | liber3
  | annas_archive
deriving DecidableEq, Repr

/-- `BookInfo`: book metadata (all fields but the title optional). -/
structure BookInfo where
  title : List Char
  authors : Option (List Char) := none
  year : Option (List Char) := none
  publisher : Option (List Char) := none
  language : Option (List Char) := none
  description : Option (List Char) := none
  cover_url : Option (List Char) := none
  file_size : Option (List Char) := none
  file_type : Option (List Char) := none
  isbn : Option (List Char) := none
deriving DecidableEq, Repr

/-- The keys the code ever stores in the `additional_params` dict of a
`DownloadInfo`: the three Liber3-specific entries set in `Liber3Platform.search`
and read back in `Liber3Platform.download`. -/
structure Liber3Params where
  ipfs_cid : Option (List Char) := none
  extension : Option (List Char) := none
  title : Option (List Char) := none
deriving DecidableEq, Repr

/-- `DownloadInfo`: everything needed to fetch one file from one platform. -/
structure DownloadInfo where
  platform : Platform
  download_url : Option (List Char) := none
  book_id : Option (List Char) := none
  hash_id : Option (List Char) := none
  file_name : Option (List Char) := none
  requires_auth : Bool := false
  additional_params : Option Liber3Params := none
deriving DecidableEq, Repr

/-- `SearchResult`: one book plus its download handle and owning platform.
`relevance_score` is a float in the source; no adapter ever populates it, so
its carrier type is irrelevant and an integer stands in for it. -/
structure SearchResult where
  book_info : BookInfo
  download_info : DownloadInfo
  platform : Platform
  relevance_score : Option Int := none
deriving DecidableEq, Repr

/-- `DownloadResult`: outcome of a download operation.  `content` holds the
in-memory byte buffer (bytes as naturals). -/
structure DownloadResult where
  success : Bool
  file_path : Option (List Char) := none
  file_name : Option (List Char) := none
  file_size : Option Nat := none
  error_message : Option (List Char) := none
  content : Option (List Nat) := none
deriving DecidableEq, Repr

/-- `LibraryConfig` with its dataclass defaults. -/
structure LibraryConfig where
  calibre_web_url : Option (List Char) := none
  enable_calibre : Bool := false
  zlib_email : Option (List Char) := none
  zlib_password : Option (List Char) := none
  enable_zlib : Bool := false
  enable_archive : Bool := true
  enable_liber3 : Bool := true
  enable_annas : Bool := false
  max_results : Int := 20
  proxy : Option (List Char) := none
  timeout : Int := 30

/-- The failure modes of `EbooksLibrary.search` (`SearchError` messages). -/
inductive SearchFailure
  | emptyQuery
  | noPlatforms
deriving DecidableEq, Repr

/-- The raise sites inside the platform adapters (each constructor names one
`raise` in the adapter code; the outer `try/except` blocks rewrap them into
`SearchError`/`DownloadError`/`AuthenticationError` keeping them
distinguishable by message, so the constructors are kept distinct here). -/
inductive AdapterFailure
  | missingDownloadUrl
  | invalidDownloadUrl
  | httpError (status : Nat)
  | missingIds
  | bookDetailsUnavailable
  | downloadCallFailed
  | authFailed
  | missingBookId
  | insufficientInfo
  | noDownloadLinks
  | clientFailed (message : List Char)
deriving DecidableEq, Repr

/-! ## Shared adapter helpers (`platforms/base.py`) -/

/-- The fixed marker `" <省略>"` appended by `BasePlatform._truncate_filename`. -/
def ellipsisMarker : List Char := " <省略>".data

/-- `filename.rsplit('.', 1) if '.' in filename else (filename, '')`:
splits at the last dot; the second component is the extension without its
dot. -/
def rsplitDot (l : List Char) : List Char × List Char :=
  match l.reverse.span (· ≠ '.') with
  | (_, []) => (l, [])
  | (revExt, _ :: revBase) => (revBase.reverse, revExt.reverse)

/-- The extension, prefixed with its dot when non-empty:
`if ext: ext = '.' + ext`. -/
def extWithDot (l : List Char) : List Char :=
  match (rsplitDot l).2 with
  | [] => []
  | e => '.' :: e

/-- The trimming loop of `_truncate_filename`:
`while len(truncated_base.encode('utf-8')) > available and truncated_base:
truncated_base = truncated_base[:-1]`.  `available` is a Python int and can be
negative.  The fuel argument bounds the number of iterations; since each
iteration removes one character, `base.length` is always enough. -/
def trimBaseAux (available : Int) : Nat → List Char → List Char
  | 0, base => base
  | fuel + 1, base =>
    if (utf8Len base : Int) > available ∧ base ≠ [] then
      trimBaseAux available fuel base.dropLast
    else base

/-- The trimming loop run to completion. -/
def trimBase (available : Int) (base : List Char) : List Char :=
  trimBaseAux available base.length base

/-- `BasePlatform._truncate_filename` with its default budget
`max_length = 100`. -/
def truncateFilename (filename : List Char) : List Char :=
  if utf8Len filename ≤ 100 then filename
  else
    let base := (rsplitDot filename).1
    let ext := extWithDot filename
    let available : Int := (100 : Int) - utf8Len ext - utf8Len ellipsisMarker
    let truncatedBase := trimBase available base
    truncatedBase ++ ellipsisMarker ++ ext

/-- `BasePlatform._is_valid_url`: http/https scheme only. -/
def isValidUrl (url : List Char) : Bool :=
  url ≠ [] && ("http://".data.isPrefixOf url || "https://".data.isPrefixOf url)

/-! ### Facts about the truncation helper -/

theorem utf8Len_append (a b : List Char) : utf8Len (a ++ b) = utf8Len a + utf8Len b := by
  simp [utf8Len]

theorem trimBaseAux_le (available : Int) (ha : 0 ≤ available) :
    ∀ fuel base, base.length ≤ fuel →
      (utf8Len (trimBaseAux available fuel base) : Int) ≤ available := by
  intro fuel
  induction fuel with
  | zero =>
    intro base hb
    have : base = [] := List.length_eq_zero.mp (Nat.le_zero.mp hb)
    subst this
    simpa [trimBaseAux, utf8Len] using ha
  | succ n ih =>
    intro base hb
    rw [trimBaseAux]
    split
    · rename_i h
      apply ih
      have hne : base ≠ [] := h.2
      have hpos : 0 < base.length := List.length_pos.mpr hne
      simp only [List.length_dropLast]
      omega
    · rename_i h
      rcases not_and_or.mp h with h1 | h2
      · omega
      · have : base = [] := not_not.mp h2
        subst this
        simpa [utf8Len] using ha

theorem trimBase_le (available : Int) (ha : 0 ≤ available) (base : List Char) :
    (utf8Len (trimBase available base) : Int) ≤ available :=
  trimBaseAux_le available ha base.length base le_rfl

/-- C3 (counterexample): a name over the 100-byte budget whose extension alone
exceeds the remaining budget is returned with more than 100 bytes: the base is
trimmed to empty, yet marker and extension are appended unconditionally. -/
theorem truncate_filename_budget_cex :
    100 < utf8Len ('a' :: '.' :: List.replicate 100 'b') ∧
    100 < utf8Len (truncateFilename ('a' :: '.' :: List.replicate 100 'b')) := by
  decide

/-- C3 (amended): for a name whose UTF-8 encoding exceeds 100 bytes the result
always ends with the original extension and contains the fixed ellipsis
marker, and — provided the extension plus the marker fit within the 100-byte
budget — the result's UTF-8 encoding is at most 100 bytes; a name of at most
100 bytes is returned unchanged. -/
theorem truncate_filename_spec (filename : List Char) :
    (100 < utf8Len filename →
      (extWithDot filename <:+ truncateFilename filename ∧
       ellipsisMarker <:+: truncateFilename filename) ∧
      (utf8Len (extWithDot filename) + utf8Len ellipsisMarker ≤ 100 →
        utf8Len (truncateFilename filename) ≤ 100)) ∧
    (utf8Len filename ≤ 100 → truncateFilename filename = filename) := by
  constructor
  · intro hbig
    have hnot : ¬ utf8Len filename ≤ 100 := by omega
    have hdef : truncateFilename filename =
        trimBase ((100 : Int) - utf8Len (extWithDot filename) - utf8Len ellipsisMarker)
            (rsplitDot filename).1
          ++ ellipsisMarker ++ extWithDot filename := by
      simp [truncateFilename, hnot]
    obtain ⟨tb, htb⟩ : ∃ tb, truncateFilename filename =
        tb ++ ellipsisMarker ++ extWithDot filename := ⟨_, hdef⟩
    constructor
    · constructor
      · rw [htb]
        exact List.suffix_append _ _
      · rw [htb]
        exact ⟨tb, extWithDot filename, rfl⟩
    · intro hfit
      have hb := trimBase_le
        ((100 : Int) - utf8Len (extWithDot filename) - utf8Len ellipsisMarker)
        (by omega) (rsplitDot filename).1
      rw [hdef, utf8Len_append, utf8Len_append]
      omega
  · intro h
    simp [truncateFilename, h]

/-- C3 witness: the spec's own example sizes — a 120-byte name with a 4-byte
extension comes back within budget, a 50-byte name comes back unchanged. -/
theorem truncate_filename_spec_witness :
    utf8Len (truncateFilename (List.replicate 116 'a' ++ ".pdf".data)) ≤ 100 ∧
    truncateFilename (List.replicate 50 'c') = List.replicate 50 'c' :=
  ⟨((truncate_filename_spec _).1 (by decide)).2 (by decide),
   (truncate_filename_spec _).2 (by decide)⟩

/-! ## Orchestrator (`core.py`, `EbooksLibrary`) -/

/-- `search_limit = limit or self.config.max_results` in `EbooksLibrary.search`
(Python `or`: both `None` and `0` are falsy and fall back to the configured
maximum). -/
def searchLimit (limit : Option Int) (config : LibraryConfig) : Int :=
  match limit with
  | none => config.max_results
  | some n => if n = 0 then config.max_results else n

/-- `target_platforms = platforms or list(self.platforms.keys())` followed by
`[p for p in target_platforms if p in self.platforms]`: an absent or empty
request list falls back to every enabled platform (Python `or` treats `[]` as
falsy), then the list is filtered to enabled platforms.  `enabled` models
`self.platforms.keys()`. -/
def targetPlatforms (requested : Option (List Platform)) (enabled : List Platform) :
    List Platform :=
  let req := match requested with
    | none => enabled
    | some [] => enabled
    | some l => l
  req.filter (fun p => enabled.contains p)

/-- `EbooksLibrary.search`: validates the query, computes the per-platform
limit and the target platform list, dispatches `_search_platform` once per
target — `_search_platform` catches every exception from the platform's
`search` and turns it into `[]`, and `asyncio.gather` preserves dispatch
order — then concatenates the per-platform lists (`if result:
all_results.extend(result)`).  `platformSearch p lim` stands for platform
`p`'s `search(query, lim)` call; `Except.error` models it raising. -/
def librarySearch (config : LibraryConfig) (query : List Char)
    (requested : Option (List Platform)) (enabled : List Platform)
    (limit : Option Int)
    (platformSearch : Platform → Int → Except (List Char) (List SearchResult)) :
    Except SearchFailure (List SearchResult) :=
  if query = [] ∨ pyStrip query = [] then .error .emptyQuery
  else
    let lim := searchLimit limit config
    let targets := targetPlatforms requested enabled
    if targets = [] then .error .noPlatforms
    else .ok (targets.flatMap (fun p =>
      match platformSearch p lim with
      | .ok rs => rs
      | .error _ => []))

/-- C1: with a non-blank query, `search` raises `NoSourcesAvailable`
(`SearchError("No platforms available for search")`) exactly when the
requested ∩ enabled platform set is empty, and when that set is non-empty and
every dispatched per-platform call raises, it returns an empty list instead of
raising. -/
theorem search_swallows_failures (config : LibraryConfig) (query : List Char)
    (requested : Option (List Platform)) (enabled : List Platform)
    (limit : Option Int)
    (platformSearch : Platform → Int → Except (List Char) (List SearchResult))
    (hq : pyStrip query ≠ []) :
    (librarySearch config query requested enabled limit platformSearch =
        .error .noPlatforms ↔ targetPlatforms requested enabled = []) ∧
    (targetPlatforms requested enabled ≠ [] →
      (∀ p ∈ targetPlatforms requested enabled,
        ∃ e, platformSearch p (searchLimit limit config) = .error e) →
      librarySearch config query requested enabled limit platformSearch = .ok []) := by
  have hq0 : query ≠ [] := by
    intro h
    subst h
    exact hq rfl
  have hcond : ¬ (query = [] ∨ pyStrip query = []) := by
    push_neg
    exact ⟨hq0, hq⟩
  constructor
  · constructor
    · intro h
      by_contra hne
      simp [librarySearch, hcond, hne] at h
    · intro h
      simp [librarySearch, hcond, h]
  · intro hne hall
    have hflat : (targetPlatforms requested enabled).flatMap (fun p =>
        match platformSearch p (searchLimit limit config) with
        | .ok rs => rs
        | .error _ => []) = [] := by
      rw [List.flatMap_eq_nil_iff]
      intro p hp
      obtain ⟨e, he⟩ := hall p hp
      simp [he]
    simp [librarySearch, hcond, hne, hflat]

/-- C1 witness: one enabled platform whose search raises — the aggregate call
returns `.ok []`, and it is not the no-platforms error. -/
theorem search_swallows_failures_witness :
    librarySearch {} "q".data none [Platform.archive_org] none
        (fun _ _ => .error "boom".data) = .ok [] ∧
    librarySearch {} "q".data none [Platform.archive_org] none
        (fun _ _ => .error "boom".data) ≠ .error .noPlatforms := by
  have h := search_swallows_failures {} "q".data none [Platform.archive_org] none
    (fun _ _ => .error "boom".data) (by decide)
  refine ⟨h.2 (by decide) ?_, ?_⟩
  · intro p _
    exact ⟨"boom".data, rfl⟩
  · intro hcontra
    have := h.1.mp hcontra
    simp [targetPlatforms] at this

/-- C2: an empty or whitespace-only query makes `search` fail with
`InvalidQuery` (`SearchError("Search query cannot be empty")`) for every
configuration and before any platform is dispatched — the outcome does not
depend on the per-platform search functions at all. -/
theorem search_blank_query (config : LibraryConfig) (query : List Char)
    (requested : Option (List Platform)) (enabled : List Platform)
    (limit : Option Int)
    (platformSearch : Platform → Int → Except (List Char) (List SearchResult))
    (hq : ∀ c ∈ query, pyIsSpace c) :
    librarySearch config query requested enabled limit platformSearch =
      .error .emptyQuery := by
  have hstrip : pyStrip query = [] := by
    have h1 : query.dropWhile pyIsSpace = [] := by
      rw [List.dropWhile_eq_nil_iff]
      exact hq
    simp [pyStrip, h1]
  simp [librarySearch, hstrip]

/-- C2 witness: `search("")` and `search("   ")` both fail with the empty-query
error under the default configuration. -/
theorem search_blank_query_witness :
    librarySearch {} [] none [Platform.archive_org] none (fun _ _ => .ok []) =
      .error .emptyQuery ∧
    librarySearch {} "   ".data none [Platform.archive_org] none (fun _ _ => .ok []) =
      .error .emptyQuery :=
  ⟨search_blank_query {} [] none [Platform.archive_org] none _ (by decide),
   search_blank_query {} "   ".data none [Platform.archive_org] none _ (by decide)⟩

/-- C10: a `limit` of `None` or `0` is replaced by the configured
`max_results` (default 20) as the per-platform limit: the dispatched limit is
`searchLimit limit config`, which maps both `none` and `some 0` to
`config.max_results`, so `search` behaves identically to an explicit
`limit = config.max_results` call. -/
theorem search_limit_fallback (config : LibraryConfig) (query : List Char)
    (requested : Option (List Platform)) (enabled : List Platform)
    (platformSearch : Platform → Int → Except (List Char) (List SearchResult)) :
    searchLimit none config = config.max_results ∧
    searchLimit (some 0) config = config.max_results ∧
    ({} : LibraryConfig).max_results = 20 ∧
    librarySearch config query requested enabled none platformSearch =
      librarySearch config query requested enabled (some config.max_results)
        platformSearch ∧
    librarySearch config query requested enabled (some 0) platformSearch =
      librarySearch config query requested enabled (some config.max_results)
        platformSearch := by
  have hs : searchLimit (some config.max_results) config = config.max_results := by
    by_cases h : config.max_results = 0 <;> simp [searchLimit, h]
  refine ⟨rfl, rfl, rfl, ?_, ?_⟩
  · unfold librarySearch
    rw [hs]
    rfl
  · unfold librarySearch
    rw [hs]
    rfl

/-! ## Calibre-Web adapter (`platforms/calibre_web.py`) -/

/-- Python list slicing `l[:n]` for an `int` bound (negative bounds count from
the end, clamped at zero). -/
def pyTake {α : Type} (n : Int) (l : List α) : List α :=
  if 0 ≤ n then l.take n.toNat else l.take (l.length - (-n).toNat)

/-- A word character as matched by `\w` in the fixed path patterns (the ASCII
set; the ids and format names in the feeds are ASCII). -/
def isWordChar (c : Char) : Bool := c.isAlpha || c.isDigit || c = '_'

/-- The `\d+/[\w]+/` tail shared by the acquisition-path patterns; with
`optSlash` the final slash is optional (`/?$`), without it it is required
(`/$`).  Neither class matches `/`, so maximal munch coincides with the
regex. -/
def matchIdFormatTail (optSlash : Bool) (rest : List Char) : Bool :=
  let ds := rest.takeWhile Char.isDigit
  let r1 := rest.dropWhile Char.isDigit
  if ds = [] then false
  else
    match r1 with
    | '/' :: r2 =>
      let ws := r2.takeWhile isWordChar
      let r3 := r2.dropWhile isWordChar
      ws ≠ [] && (r3 = ['/'] || (optSlash && r3 = []))
    | _ => false

/-- `re.match(r"^/opds/download/\d+/[\w]+/$", suffix)` as applied to
acquisition hrefs in `CalibreWebPlatform._parse_opds_response`. -/
def matchOpdsDownloadPath (s : List Char) : Bool :=
  "/opds/download/".data.isPrefixOf s &&
    matchIdFormatTail false (s.drop "/opds/download/".data.length)

/-- Modelled from the spec: the acquisition-path pattern the spec quotes,
`^/download/\d+/[\w]+/?$`, stated for comparison with the pattern the code
actually applies. -/
def specDownloadPathPattern (s : List Char) : Bool :=
  "/download/".data.isPrefixOf s &&
    matchIdFormatTail true (s.drop "/download/".data.length)

/-- `re.match(r"^/opds/cover/\d+$", suffix)` for cover hrefs. -/
def matchOpdsCoverPath (s : List Char) : Bool :=
  "/opds/cover/".data.isPrefixOf s &&
    (let r := s.drop "/opds/cover/".data.length
     r ≠ [] && r.all Char.isDigit)

/-- `CalibreWebPlatform._is_valid_calibre_url`: http(s) scheme plus a plain
substring check for `/opds/download/` — not the acquisition-path pattern. -/
def isValidCalibreUrl (url : List Char) : Bool :=
  isValidUrl url && hasSubstring url "/opds/download/".data

/-- The `href`/`type`/`length` attributes of an acquisition `<link>` element
(`attrib.get` with its defaults applied at the use sites). -/
structure AcqLink where
  href : List Char := []
  typeAttr : Option (List Char) := none
  lengthAttr : Option (List Char) := none
deriving DecidableEq, Repr

/-- What `_parse_opds_response` reads out of one Atom `<entry>` element: each
`find(...)` plus `.text` access is an `Option`, `findall` on author names is a
list (texts, kept only when truthy at the use site), and the cover href
defaults to `""` when the element is absent.  The XML parsing itself
(`ET.fromstring` after control-character stripping and whitespace collapse) is
the external boundary producing these values; malformed XML raises before any
entry exists. -/
structure OpdsEntry where
  title : Option (List Char) := none
  authorNames : List (List Char) := []
  summary : Option (List Char) := none
  published : Option (List Char) := none
  language : Option (List Char) := none
  publisher : Option (List Char) := none
  coverHref : List Char := []
  acquisition : Option AcqLink := none
deriving DecidableEq, Repr

/-- The per-entry dict appended to `results` in `_parse_opds_response`
(`year` is the parsed `int` or the string `"Unknown"`, modelled as
`Option Int`). -/
structure ParsedOpdsEntry where
  title : List Char
  authors : List Char
  summary : List Char
  year : Option Int
  publisher : List Char
  language : List Char
  cover_link : List Char
  download_link : List Char
  file_type : List Char
  file_size : List Char
deriving DecidableEq, Repr

/-- The per-entry extraction of `_parse_opds_response`.  `isoYear` abstracts
`datetime.fromisoformat(text).year` (`none` models the `ValueError` branch),
`join` abstracts `urllib.parse.urljoin`. -/
def parseOpdsEntry (isoYear : List Char → Option Int)
    (join : List Char → List Char → List Char)
    (baseUrl : List Char) (entry : OpdsEntry) : ParsedOpdsEntry :=
  let presentAuthors := entry.authorNames.filter (fun a => a ≠ [])
  { title := entry.title.getD "Unknown".data,
    authors := if presentAuthors = [] then "Unknown".data
      else List.intercalate ", ".data presentAuthors,
    summary := entry.summary.getD "No description".data,
    year := match entry.published with
      | none => none
      | some d => if d = [] then none else isoYear d,
    publisher := entry.publisher.getD "Unknown".data,
    language := entry.language.getD "Unknown".data,
    cover_link := if entry.coverHref ≠ [] ∧ matchOpdsCoverPath entry.coverHref then
        join baseUrl entry.coverHref
      else [],
    download_link := match entry.acquisition with
      | none => []
      | some a =>
        if a.href ≠ [] ∧ matchOpdsDownloadPath a.href then join baseUrl a.href
        else [],
    file_type := match entry.acquisition with
      | none => "Unknown".data
      | some a => a.typeAttr.getD "Unknown".data,
    file_size := match entry.acquisition with
      | none => "Unknown".data
      | some a => a.lengthAttr.getD "Unknown".data }

/-- `_parse_opds_response` over the extracted entries:
`results[:limit] if limit else results` (both `None` and `0` mean no
truncation). -/
def parseOpdsResponse (isoYear : List Char → Option Int)
    (join : List Char → List Char → List Char) (baseUrl : List Char)
    (entries : List OpdsEntry) (limit : Option Int) : List ParsedOpdsEntry :=
  let results := entries.map (parseOpdsEntry isoYear join baseUrl)
  match limit with
  | none => results
  | some n => if n = 0 then results else pyTake n results

/-- `CalibreWebPlatform._extract_filename_from_url`: recovers
`book_<id>.<fmt>` from a URL whose tail matches
`/opds/download/(\d+)/([^/]+)/?$`, `None` otherwise.  The maximal-munch
decomposition from the right coincides with the regex search: neither group
can contain `/`, and a shorter digit run cannot re-establish the literal
prefix (which ends in a non-digit). -/
def extractFilenameFromUrl (url : Option (List Char)) : Option (List Char) :=
  match url with
  | none => none
  | some u =>
    if u = [] then none
    else
      let r := if u.getLast? = some '/' then u.dropLast else u
      let fmt := (r.reverse.takeWhile (· ≠ '/')).reverse
      let r2 := (r.reverse.dropWhile (· ≠ '/')).reverse
      if fmt = [] then none
      else
        match r2.getLast? with
        | some '/' =>
          let r3 := r2.dropLast
          let ds := (r3.reverse.takeWhile Char.isDigit).reverse
          let r4 := (r3.reverse.dropWhile Char.isDigit).reverse
          if ds = [] then none
          else if "/opds/download/".data <:+ r4 then
            some ("book_".data ++ ds ++ '.' :: fmt.map Char.toLower)
          else none
        | _ => none

/-- The `SearchResult` assembly loop of `CalibreWebPlatform.search`
(`str(result.get("year", "Unknown"))` turns the parsed year back into a
string). -/
def calibreSearchResults (parsed : List ParsedOpdsEntry) : List SearchResult :=
  parsed.map (fun r =>
    { book_info := { title := r.title,
                     authors := some r.authors,
                     year := some (match r.year with
                       | some y => intChars y
                       | none => "Unknown".data),
                     publisher := some r.publisher,
                     language := some r.language,
                     description := some r.summary,
                     cover_url := some r.cover_link,
                     file_type := some r.file_type,
                     file_size := some r.file_size },
      download_info := { platform := Platform.calibre_web,
                         download_url := some r.download_link,
                         file_name := extractFilenameFromUrl (some r.download_link) },
      platform := Platform.calibre_web })

/-- The environment of one `CalibreWebPlatform.download` call:
`status` is the HTTP status, `dispositionName` abstracts
`_extract_filename_from_response(response)` (content-disposition header
parsing), `content` the response body, `cwd` is `Path.cwd()`. -/
structure CalibreDownloadEnv where
  status : Nat
  dispositionName : Option (List Char) := none
  content : List Nat := []
  cwd : List Char := []
deriving DecidableEq, Repr

/-- `CalibreWebPlatform.download` (the raise sites keep their identity through
the outer `except` rewrap; saving under `save_path / file_name` is the path
join). -/
def calibreDownload (info : DownloadInfo) (env : CalibreDownloadEnv)
    (savePath : Option (List Char)) (returnContent : Bool) :
    Except AdapterFailure DownloadResult :=
  if !pyTruthy info.download_url then .error .missingDownloadUrl
  else
    let url := info.download_url.getD []
    if !isValidCalibreUrl url then .error .invalidDownloadUrl
    else if env.status ≠ 200 then .error (.httpError env.status)
    else
      let name0 := match env.dispositionName with
        | some n => if n = [] then pyOrStr info.file_name "unknown_book".data else n
        | none => pyOrStr info.file_name "unknown_book".data
      let fileName := truncateFilename name0
      if returnContent then
        .ok { success := true, file_name := some fileName,
              file_size := some env.content.length, content := some env.content }
      else
        let dir := savePath.getD env.cwd
        .ok { success := true, file_path := some (dir ++ '/' :: fileName),
              file_name := some fileName, file_size := some env.content.length }

/-- C5 (counterexample): the spec's pattern `^/download/\d+/[\w]+/?$` is not
the pattern the code applies — a path matching the spec's pattern is rejected
by the parser (its download link stays empty), and the download side accepts a
URL by scheme plus `/opds/download/` substring even though its path matches
neither pattern, succeeding instead of failing with `InvalidDownloadTarget`. -/
theorem calibre_pattern_cex :
    specDownloadPathPattern "/download/123/epub/".data = true ∧
    matchOpdsDownloadPath "/download/123/epub/".data = false ∧
    (parseOpdsEntry (fun _ => none) (fun b r => b ++ r) "http://host".data
      { acquisition := some { href := "/download/123/epub/".data } }).download_link = [] ∧
    isValidCalibreUrl "http://host/opds/download/!!".data = true ∧
    matchOpdsDownloadPath "/opds/download/!!".data = false ∧
    specDownloadPathPattern "/opds/download/!!".data = false ∧
    calibreDownload
      { platform := Platform.calibre_web,
        download_url := some "http://host/opds/download/!!".data }
      { status := 200, dispositionName := none, content := [1], cwd := ".".data }
      none true =
      .ok { success := true, file_name := some "unknown_book".data,
            file_size := some 1, content := some [1] } := by
  refine ⟨by decide, by decide, by decide, by decide, by decide, by decide, ?_⟩
  rfl

/-- C5 (amended): the parser accepts an entry's acquisition link (resolving it
against the base URL) exactly when its href is non-empty and matches
`^/opds/download/\d+/[\w]+/$`, leaving the download link empty otherwise; the
download operation rejects a handle URL exactly when it fails the
`_is_valid_calibre_url` check — http(s) scheme plus a `/opds/download/`
substring — not the path pattern. -/
theorem calibre_link_rules (isoYear : List Char → Option Int)
    (join : List Char → List Char → List Char) (baseUrl : List Char)
    (entry : OpdsEntry) (info : DownloadInfo) (env : CalibreDownloadEnv)
    (savePath : Option (List Char)) (returnContent : Bool) :
    ((parseOpdsEntry isoYear join baseUrl entry).download_link ≠ [] →
      ∃ a, entry.acquisition = some a ∧ a.href ≠ [] ∧
        matchOpdsDownloadPath a.href = true ∧
        (parseOpdsEntry isoYear join baseUrl entry).download_link = join baseUrl a.href) ∧
    (∀ a, entry.acquisition = some a → a.href ≠ [] →
      matchOpdsDownloadPath a.href = true →
      (parseOpdsEntry isoYear join baseUrl entry).download_link = join baseUrl a.href) ∧
    (∀ u, info.download_url = some u → u ≠ [] → isValidCalibreUrl u = false →
      calibreDownload info env savePath returnContent = .error .invalidDownloadUrl) ∧
    (∀ u, info.download_url = some u → isValidCalibreUrl u = true →
      calibreDownload info env savePath returnContent ≠ .error .invalidDownloadUrl ∧
      calibreDownload info env savePath returnContent ≠ .error .missingDownloadUrl) := by
  refine ⟨?_, ?_, ?_, ?_⟩
  · intro h
    cases hacq : entry.acquisition with
    | none =>
      exact absurd (by simp [parseOpdsEntry, hacq]) h
    | some a =>
      by_cases hh : a.href ≠ [] ∧ matchOpdsDownloadPath a.href = true
      · exact ⟨a, rfl, hh.1, hh.2, by simp [parseOpdsEntry, hacq, hh.1, hh.2]⟩
      · exact absurd (by simp [parseOpdsEntry, hacq, if_neg hh]) h
  · intro a hacq hne hm
    simp [parseOpdsEntry, hacq, hne, hm]
  · intro u hu hne hv
    simp [calibreDownload, hu, pyTruthy, hne, hv]
  · intro u hu hv
    have hne : u ≠ [] := by
      intro h
      subst h
      simp [isValidCalibreUrl, isValidUrl] at hv
    by_cases hs : env.status = 200 <;>
      by_cases hr : returnContent = true <;>
      simp [calibreDownload, hu, pyTruthy, hne, hv, hs, hr]

/-- C5 witness for the amended rules: an accepted href resolves against the
base, and a substring-valid URL is not rejected by the download path. -/
theorem calibre_link_rules_witness :
    (parseOpdsEntry (fun _ => none) (fun b r => b ++ r) "http://host".data
      { acquisition := some { href := "/opds/download/7/epub/".data } }).download_link =
      "http://host/opds/download/7/epub/".data ∧
    calibreDownload
      { platform := Platform.calibre_web,
        download_url := some "http://x/opds/download/zz".data }
      { status := 404 } none true ≠ .error .invalidDownloadUrl := by
  have h := calibre_link_rules (fun _ => none) (fun b r => b ++ r) "http://host".data
    { acquisition := some { href := "/opds/download/7/epub/".data } }
    { platform := Platform.calibre_web,
      download_url := some "http://x/opds/download/zz".data }
    { status := 404 } none true
  exact ⟨h.2.1 _ rfl (by decide) (by decide),
    (h.2.2.2 "http://x/opds/download/zz".data rfl (by decide)).1⟩

/-- C9: an entry without a (non-empty) `<published>` text yields year
`"Unknown"` and is still included; an entry whose date text parses yields the
parsed year as a string, and one that fails to parse yields `"Unknown"`; a
two-entry feed always produces exactly two results. -/
theorem opds_unknown_year (isoYear : List Char → Option Int)
    (join : List Char → List Char → List Char) (baseUrl : List Char)
    (e1 e2 : OpdsEntry) (d : List Char)
    (h1 : e1.published = none) (h2 : e2.published = some d) (hd : d ≠ []) :
    (calibreSearchResults (parseOpdsResponse isoYear join baseUrl [e1, e2] none)).length = 2 ∧
    (∀ y, isoYear d = some y →
      (calibreSearchResults (parseOpdsResponse isoYear join baseUrl [e1, e2] none)).map
        (fun r => r.book_info.year) = [some "Unknown".data, some (intChars y)]) ∧
    (isoYear d = none →
      (calibreSearchResults (parseOpdsResponse isoYear join baseUrl [e1, e2] none)).map
        (fun r => r.book_info.year) = [some "Unknown".data, some "Unknown".data]) := by
  refine ⟨?_, ?_, ?_⟩
  · simp [calibreSearchResults, parseOpdsResponse]
  · intro y hy
    simp [calibreSearchResults, parseOpdsResponse, parseOpdsEntry, h1, h2, hd, hy]
  · intro hy
    simp [calibreSearchResults, parseOpdsResponse, parseOpdsEntry, h1, h2, hd, hy]

/-- C9 witness: a concrete two-entry feed, one entry missing `<published>`,
the other carrying a date that parses to 2020. -/
theorem opds_unknown_year_witness :
    (calibreSearchResults (parseOpdsResponse
      (fun s => if s = "2020-05-01".data then some 2020 else none)
      (fun b r => b ++ r) "http://h".data
      [{}, { published := some "2020-05-01".data }] none)).map
      (fun r => r.book_info.year) = [some "Unknown".data, some (intChars 2020)] :=
  (opds_unknown_year (fun s => if s = "2020-05-01".data then some 2020 else none)
    (fun b r => b ++ r) "http://h".data {} { published := some "2020-05-01".data }
    "2020-05-01".data rfl rfl (by decide)).2.1 2020 (by simp)

/-! ## Z-Library adapter (`platforms/zlibrary.py`) -/

/-- The retry loop of `_ensure_logged_in`: `i` is the current `retry_count`,
`remaining` how many of the `_max_retries` are left.  `attemptLoggedIn i`
abstracts attempt `i` of `self.zlibrary.login(...)` followed by
`self.zlibrary.isLoggedIn()`: `true` when the attempt leaves the session
logged in, `false` when it fails or raises (both only increment
`retry_count`).  The `.ok` value is the number of attempts made. -/
def loginAttemptsLoop (attemptLoggedIn : Nat → Bool) :
    Nat → Nat → Except AdapterFailure Nat
  | _, 0 => .error .authFailed
  | i, remaining + 1 =>
    if attemptLoggedIn i then .ok (i + 1)
    else loginAttemptsLoop attemptLoggedIn (i + 1) remaining

/-- `ZLibraryPlatform._ensure_logged_in` (`_max_retries = 3`): no attempt when
`isLoggedIn()` already holds, otherwise up to 3 attempts and
`AuthenticationError` after the third failure. -/
def ensureLoggedIn (loggedIn : Bool) (attemptLoggedIn : Nat → Bool) :
    Except AdapterFailure Nat :=
  if loggedIn then .ok 0 else loginAttemptsLoop attemptLoggedIn 0 3

/-- `ZLibraryPlatform._clean_description`. -/
def cleanDescription (description : Option (List Char)) : Option (List Char) :=
  match description with
  | none => none
  | some d =>
    if d = [] ∨ d = "None".data then none
    else
      let s := pyStrip d
      some (if 300 < s.length then s.take 300 ++ "...".data else s)

/-- One record of the wrapped client's book dicts, with the fields the adapter
reads (`Option` models an absent key). -/
structure ZBookRecord where
  title : Option (List Char) := none
  author : Option (List Char) := none
  year : Option Int := none
  publisher : Option (List Char) := none
  language : Option (List Char) := none
  description : Option (List Char) := none
  cover : Option (List Char) := none
  filesize : Option (List Char) := none
  extension : Option (List Char) := none
  isbn : Option (List Char) := none
deriving DecidableEq, Repr

/-- The `BookInfo` built by `ZLibraryPlatform.get_book_info` from a client
book dict (publisher equal to the literal string `"None"` is normalized to
`"Unknown"`; an absent publisher stays `None`). -/
def zBookToInfo (b : ZBookRecord) : BookInfo :=
  { title := b.title.getD "Unknown".data,
    authors := some (b.author.getD "Unknown".data),
    year := some (match b.year with
      | some y => intChars y
      | none => "Unknown".data),
    publisher := match b.publisher with
      | some p => if p = "None".data then some "Unknown".data else some p
      | none => none,
    language := some (b.language.getD "Unknown".data),
    description := cleanDescription b.description,
    cover_url := b.cover,
    file_size := b.filesize,
    file_type := b.extension,
    isbn := b.isbn }

/-- `ZLibraryPlatform.search`: `_ensure_logged_in` first — the
`except AuthenticationError: raise` clause re-raises it unchanged — then the
client query; its result (and the normalization loop over the book dicts) is
abstracted as `clientResults`, a raising client call being `Except.error`. -/
def zSearch (loggedIn : Bool) (attemptLoggedIn : Nat → Bool)
    (clientResults : Except (List Char) (List SearchResult)) :
    Except AdapterFailure (List SearchResult) :=
  match ensureLoggedIn loggedIn attemptLoggedIn with
  | .error e => .error e
  | .ok _ =>
    match clientResults with
    | .error m => .error (.clientFailed m)
    | .ok rs => .ok rs

/-- The environment of one `ZLibraryPlatform.download` call beyond the session
state: `bookDetailsTruthy` is the truthiness of
`getBookInfo(book_id, hashid)`, `downloadResult` the `downloadBook(...)`
value (`none` models a falsy return), `cwd` is `Path.cwd()`. -/
structure ZDownloadEnv where
  bookDetailsTruthy : Bool := true
  downloadResult : Option (List Char × List Nat) := none
  cwd : List Char := []

/-- `ZLibraryPlatform.download` (the `except AuthenticationError: raise`
clause keeps the auth failure; every other raise keeps its site's
constructor). -/
def zDownload (loggedIn : Bool) (attemptLoggedIn : Nat → Bool)
    (info : DownloadInfo) (env : ZDownloadEnv)
    (savePath : Option (List Char)) (returnContent : Bool) :
    Except AdapterFailure DownloadResult :=
  match ensureLoggedIn loggedIn attemptLoggedIn with
  | .error e => .error e
  | .ok _ =>
    if !pyTruthy info.book_id || !pyTruthy info.hash_id then .error .missingIds
    else if !env.bookDetailsTruthy then .error .bookDetailsUnavailable
    else
      match env.downloadResult with
      | none => .error .downloadCallFailed
      | some (bookName, bookContent) =>
        let fileName := truncateFilename bookName
        if returnContent then
          .ok { success := true, file_name := some fileName,
                file_size := some bookContent.length, content := some bookContent }
        else
          let dir := savePath.getD env.cwd
          .ok { success := true, file_path := some (dir ++ '/' :: fileName),
                file_name := some fileName, file_size := some bookContent.length }

/-- The body of `ZLibraryPlatform.get_book_info` before its catch-all:
`successBook` abstracts the `getBookInfo` response — `some b` when the
response is truthy with a truthy `success` field, carrying its `book` dict. -/
def zGetBookInfoCore (loggedIn : Bool) (attemptLoggedIn : Nat → Bool)
    (info : DownloadInfo) (successBook : Option ZBookRecord) :
    Except AdapterFailure (Option BookInfo) :=
  match ensureLoggedIn loggedIn attemptLoggedIn with
  | .error e => .error e
  | .ok _ =>
    if !pyTruthy info.book_id || !pyTruthy info.hash_id then .ok none
    else
      match successBook with
      | none => .ok none
      | some b => .ok (some (zBookToInfo b))

/-- `ZLibraryPlatform.get_book_info`: the whole body is wrapped in
`try/except Exception: return None`, so every raise — the
`AuthenticationError` from `_ensure_logged_in` included — is swallowed and
the call returns `None`. -/
def zGetBookInfo (loggedIn : Bool) (attemptLoggedIn : Nat → Bool)
    (info : DownloadInfo) (successBook : Option ZBookRecord) : Option BookInfo :=
  match zGetBookInfoCore loggedIn attemptLoggedIn info successBook with
  | .error _ => none
  | .ok v => v

theorem loginAttemptsLoop_ok_le (att : Nat → Bool) :
    ∀ remaining i n, loginAttemptsLoop att i remaining = .ok n → n ≤ i + remaining := by
  intro remaining
  induction remaining with
  | zero =>
    intro i n h
    simp [loginAttemptsLoop] at h
  | succ r ih =>
    intro i n h
    rw [loginAttemptsLoop] at h
    split at h
    · cases h
      omega
    · have := ih (i + 1) n h
      omega

theorem loginLoop3_error_iff (att : Nat → Bool) :
    loginAttemptsLoop att 0 3 = .error .authFailed ↔
      (att 0 = false ∧ att 1 = false ∧ att 2 = false) := by
  by_cases h0 : att 0 <;> by_cases h1 : att 1 <;> by_cases h2 : att 2 <;>
    simp [loginAttemptsLoop, h0, h1, h2]

/-- C6 (counterexample): with a logged-out session and three failing login
attempts, `get_book_info` does not fail with `AuthenticationFailed`: the
`AuthenticationError` is raised inside the body but the method's catch-all
swallows it and the call returns `None`. -/
theorem zlib_info_swallows_auth_cex :
    zGetBookInfoCore false (fun _ => false)
      { platform := Platform.zlibrary, book_id := some "1".data,
        hash_id := some "abcdef".data } none = .error .authFailed ∧
    zGetBookInfo false (fun _ => false)
      { platform := Platform.zlibrary, book_id := some "1".data,
        hash_id := some "abcdef".data } none = none :=
  ⟨rfl, rfl⟩

/-- C6 (amended): a logged-in session makes every call proceed with zero login
attempts; otherwise at most 3 attempts are made, and exhausting all 3 without
a logged-in session raises `AuthenticationFailed`, which aborts `search` and
`download` with that error while `get_book_info` swallows it and returns
no info. -/
theorem zlib_login_retry (loggedIn : Bool) (att : Nat → Bool)
    (clientResults : Except (List Char) (List SearchResult))
    (info : DownloadInfo) (denv : ZDownloadEnv) (savePath : Option (List Char))
    (returnContent : Bool) (successBook : Option ZBookRecord) :
    (loggedIn = true → ensureLoggedIn loggedIn att = .ok 0) ∧
    (∀ n, ensureLoggedIn loggedIn att = .ok n → n ≤ 3) ∧
    (ensureLoggedIn loggedIn att = .error .authFailed ↔
      (loggedIn = false ∧ ∀ i < 3, att i = false)) ∧
    (loggedIn = false → (∀ i < 3, att i = false) →
      zSearch loggedIn att clientResults = .error .authFailed ∧
      zDownload loggedIn att info denv savePath returnContent = .error .authFailed ∧
      zGetBookInfo loggedIn att info successBook = none) := by
  have herr : loggedIn = false → (∀ i < 3, att i = false) →
      ensureLoggedIn loggedIn att = .error .authFailed := by
    intro hl hall
    rw [hl]
    simp only [ensureLoggedIn, if_false, Bool.false_eq_true]
    exact (loginLoop3_error_iff att).mpr
      ⟨hall 0 (by omega), hall 1 (by omega), hall 2 (by omega)⟩
  refine ⟨?_, ?_, ?_, ?_⟩
  · intro h
    simp [ensureLoggedIn, h]
  · intro n h
    unfold ensureLoggedIn at h
    split at h
    · cases h
      omega
    · simpa using loginAttemptsLoop_ok_le att 3 0 n h
  · constructor
    · intro h
      unfold ensureLoggedIn at h
      split at h
      · simp at h
      · rename_i hl
        have ht := (loginLoop3_error_iff att).mp h
        refine ⟨by simpa using hl, ?_⟩
        intro i hi
        interval_cases i <;> tauto
    · rintro ⟨hl, hall⟩
      exact herr hl hall
  · intro hl hall
    have h := herr hl hall
    exact ⟨by simp [zSearch, h], by simp [zDownload, h],
      by simp [zGetBookInfo, zGetBookInfoCore, h]⟩

/-- C6 witness: concrete logged-out session whose three attempts all fail. -/
theorem zlib_login_retry_witness :
    zSearch false (fun _ => false) (.ok []) = .error .authFailed ∧
    zGetBookInfo false (fun _ => false) { platform := Platform.zlibrary } none = none := by
  have h := zlib_login_retry false (fun _ => false) (.ok [])
    { platform := Platform.zlibrary } {} none true none
  have h4 := h.2.2.2 rfl (fun i _ => rfl)
  exact ⟨h4.1, h4.2.2⟩

/-! ## Liber3 adapter (`platforms/liber3.py`) -/

/-- Python `title.replace(" ", "_")`. -/
def spaceToUnderscore (l : List Char) : List Char :=
  l.map (fun c => if c = ' ' then '_' else c)

/-- The `book` dict of one id in a `_get_book_details` response (only the
fields `download` reads back). -/
structure Liber3Detail where
  ipfs_cid : Option (List Char) := none
  extension : Option (List Char) := none
  title : Option (List Char) := none
deriving DecidableEq, Repr

/-- The environment of one `Liber3Platform.download` call: `refetch` is the
outcome of the single `_get_book_details(session, [book_id])` call it may
issue — `none` models both a failed detail call (`_get_book_details`
returning `None`) and the id missing from the response, `some d` the id's
`book` dict; `status`/`content` are the gateway fetch, `cwd` is
`Path.cwd()`. -/
structure Liber3DownloadEnv where
  refetch : Option Liber3Detail := none
  status : Nat := 200
  content : List Nat := []
  cwd : List Char := []

/-- `Liber3Platform.download`, instrumented with the number of
`_get_book_details` calls it issues (the second component).  The re-fetch is
triggered by `if not ipfs_cid or not extension:` — a missing `title` alone
does not trigger it (it defaults to `"unknown_book"`). -/
def liber3Download (info : DownloadInfo) (env : Liber3DownloadEnv)
    (savePath : Option (List Char)) (returnContent : Bool) :
    Except AdapterFailure DownloadResult × Nat :=
  if !pyTruthy info.book_id then (.error .missingBookId, 0)
  else
    let ps := info.additional_params.getD {}
    let needRefetch := !pyTruthy ps.ipfs_cid || !pyTruthy ps.extension
    let fetchCount := if needRefetch then 1 else 0
    let fetched : Except AdapterFailure (Option (List Char) × Option (List Char) × List Char) :=
      if needRefetch then
        match env.refetch with
        | none => .error .bookDetailsUnavailable
        | some d =>
          .ok (d.ipfs_cid, d.extension, spaceToUnderscore (d.title.getD "unknown_book".data))
      else .ok (ps.ipfs_cid, ps.extension, ps.title.getD "unknown_book".data)
    let outcome : Except AdapterFailure DownloadResult :=
      match fetched with
      | .error e => .error e
      | .ok (cid, ext, title) =>
        if !pyTruthy cid || !pyTruthy ext then .error .insufficientInfo
        else
          let fileName0 := title ++ '.' :: ext.getD []
          if env.status ≠ 200 then .error (.httpError env.status)
          else
            let fileName := truncateFilename fileName0
            if returnContent then
              .ok { success := true, file_name := some fileName,
                    file_size := some env.content.length, content := some env.content }
            else
              let dir := savePath.getD env.cwd
              .ok { success := true, file_path := some (dir ++ '/' :: fileName),
                    file_name := some fileName, file_size := some env.content.length }
    (outcome, fetchCount)

/-- C7 (counterexample): a handle whose extra params carry the
content-addressed id and the extension but no sanitized title issues no
batch-detail re-fetch at all — the title simply defaults — contradicting the
claim that a missing title (one of the three) triggers exactly one
re-fetch. -/
theorem liber3_missing_title_cex :
    (liber3Download
      { platform := Platform.liber3, book_id := some "b1".data,
        additional_params := some { ipfs_cid := some "QmX".data,
                                    extension := some "epub".data, title := none } }
      { refetch := none, status := 200, content := [7], cwd := ".".data }
      none true).2 = 0 ∧
    (liber3Download
      { platform := Platform.liber3, book_id := some "b1".data,
        additional_params := some { ipfs_cid := some "QmX".data,
                                    extension := some "epub".data, title := none } }
      { refetch := none, status := 200, content := [7], cwd := ".".data }
      none true).1 =
      .ok { success := true, file_name := some "unknown_book.epub".data,
            file_size := some 1, content := some [7] } := by
  exact ⟨rfl, rfl⟩

/-- C7 (amended): the single batch-detail re-fetch is issued exactly when the
content-addressed identifier or the file extension is missing from the extra
params (a missing sanitized title alone triggers nothing and defaults to
`"unknown_book"`); `InsufficientDownloadInfo` is only raised when the two
parameters are still missing after that re-fetch. -/
theorem liber3_refetch_rules (info : DownloadInfo) (env : Liber3DownloadEnv)
    (savePath : Option (List Char)) (returnContent : Bool)
    (hid : pyTruthy info.book_id = true) :
    ((¬ pyTruthy (info.additional_params.getD {}).ipfs_cid = true ∨
      ¬ pyTruthy (info.additional_params.getD {}).extension = true) →
      (liber3Download info env savePath returnContent).2 = 1) ∧
    ((pyTruthy (info.additional_params.getD {}).ipfs_cid = true ∧
      pyTruthy (info.additional_params.getD {}).extension = true) →
      (liber3Download info env savePath returnContent).2 = 0) ∧
    ((liber3Download info env savePath returnContent).1 = .error .insufficientInfo →
      ∃ d, env.refetch = some d ∧
        (¬ pyTruthy d.ipfs_cid = true ∨ ¬ pyTruthy d.extension = true) ∧
        (¬ pyTruthy (info.additional_params.getD {}).ipfs_cid = true ∨
         ¬ pyTruthy (info.additional_params.getD {}).extension = true)) := by
  refine ⟨?_, ?_, ?_⟩
  · intro h
    have hneed : (!pyTruthy (info.additional_params.getD {}).ipfs_cid ||
        !pyTruthy (info.additional_params.getD {}).extension) = true := by
      rcases h with h | h <;> simp_all
    simp [liber3Download, hid, hneed]
  · intro h
    have hneed : (!pyTruthy (info.additional_params.getD {}).ipfs_cid ||
        !pyTruthy (info.additional_params.getD {}).extension) = false := by
      simp [h.1, h.2]
    simp [liber3Download, hid, hneed]
  · intro h
    by_cases hneed : (!pyTruthy (info.additional_params.getD {}).ipfs_cid ||
        !pyTruthy (info.additional_params.getD {}).extension) = true
    · cases hr : env.refetch with
      | none =>
        exfalso
        simp [liber3Download, hid, hneed, hr] at h
      | some d =>
        refine ⟨d, rfl, ?_, by simpa using hneed⟩
        by_cases hd : (!pyTruthy d.ipfs_cid || !pyTruthy d.extension) = true
        · simpa using hd
        · exfalso
          have hd' : (!pyTruthy d.ipfs_cid || !pyTruthy d.extension) = false := by
            simpa using hd
          by_cases hs : env.status = 200 <;> by_cases hc : returnContent = true <;>
            simp [liber3Download, hid, hneed, hr, hd', hs, hc] at h
    · exfalso
      have hneed' : (!pyTruthy (info.additional_params.getD {}).ipfs_cid ||
          !pyTruthy (info.additional_params.getD {}).extension) = false := by
        simpa using hneed
      have htr : pyTruthy (info.additional_params.getD {}).ipfs_cid = true ∧
          pyTruthy (info.additional_params.getD {}).extension = true := by
        constructor <;> simp_all
      by_cases hs : env.status = 200 <;> by_cases hc : returnContent = true <;>
        simp [liber3Download, hid, hneed', htr.1, htr.2, hs, hc] at h

/-- C7 witness: a handle missing `ipfs_cid` issues exactly one batch-detail
re-fetch. -/
theorem liber3_refetch_rules_witness :
    (liber3Download
      { platform := Platform.liber3, book_id := some "b".data,
        additional_params := some { ipfs_cid := none,
                                    extension := some "epub".data,
                                    title := some "t".data } }
      { refetch := some { ipfs_cid := some "Qm".data,
                          extension := some "epub".data,
                          title := some "a b".data } }
      none true).2 = 1 :=
  (liber3_refetch_rules
    { platform := Platform.liber3, book_id := some "b".data,
      additional_params := some { ipfs_cid := none,
                                  extension := some "epub".data,
                                  title := some "t".data } }
    { refetch := some { ipfs_cid := some "Qm".data,
                        extension := some "epub".data,
                        title := some "a b".data } }
    none true rfl).1 (Or.inl (by decide))

/-! ## Anna's Archive adapter (`platforms/annas_archive.py`) -/

/-- One entry of `get_annas_information(book_id).urls`. -/
structure AnnasUrl where
  title : List Char
  url : List Char
deriving DecidableEq, Repr

/-- `[url for url in urls if "Fast Partner Server" in url.title]`. -/
def annasFastLinks (urls : List AnnasUrl) : List AnnasUrl :=
  urls.filter (fun u => hasSubstring u.title "Fast Partner Server".data)

/-- `[url for url in urls if "Slow Partner Server" in url.title]`. -/
def annasSlowLinks (urls : List AnnasUrl) : List AnnasUrl :=
  urls.filter (fun u => hasSubstring u.title "Slow Partner Server".data)

/-- The links in neither of the two partner-server tiers. -/
def annasOtherLinks (urls : List AnnasUrl) : List AnnasUrl :=
  urls.filter (fun u => !hasSubstring u.title "Fast Partner Server".data &&
    !hasSubstring u.title "Slow Partner Server".data)

/-- The numbered lines `f"  {i}. {url.url}"` of one tier
(`enumerate(links, 1)`). -/
def annasNumberedLines (links : List AnnasUrl) : List (List Char) :=
  (List.enumFrom 1 links).map (fun p =>
    "  ".data ++ (toString p.1).data ++ ". ".data ++ p.2.url)

/-- The `links_info` list built by `AnnasArchivePlatform.download`: a header
plus numbered lines per non-empty tier, in fast/slow/other order. -/
def annasLinksInfo (urls : List AnnasUrl) : List (List Char) :=
  (if annasFastLinks urls ≠ [] then
    "Fast links (paid):".data :: annasNumberedLines (annasFastLinks urls)
  else []) ++
  (if annasSlowLinks urls ≠ [] then
    "Slow links (free with wait):".data :: annasNumberedLines (annasSlowLinks urls)
  else []) ++
  (if annasOtherLinks urls ≠ [] then
    "Other links:".data :: annasNumberedLines (annasOtherLinks urls)
  else [])

/-- `AnnasArchivePlatform.download`: never fetches a file; with a non-empty
link list it returns a non-success `DownloadResult` whose error message lists
the tiers (`"\n".join(links_info)` under the fixed preamble).  `urls`
abstracts `get_annas_information(book_id).urls`. -/
def annasDownload (info : DownloadInfo) (urls : List AnnasUrl) :
    Except AdapterFailure DownloadResult :=
  if !pyTruthy info.book_id then .error .missingBookId
  else if urls = [] then .error .noDownloadLinks
  else .ok { success := false,
             error_message := some
               ("Anna's Archive requires manual download. Available links:\n".data
                 ++ List.intercalate "\n".data (annasLinksInfo urls)) }

/-! ## Archive.org adapter download (`platforms/archive_org.py`) -/

/-- `ArchiveOrgPlatform._is_valid_archive_url`: http(s) scheme plus an
`archive.org/download/` substring. -/
def isValidArchiveUrl (url : List Char) : Bool :=
  isValidUrl url && hasSubstring url "archive.org/download/".data

/-- The environment of one `ArchiveOrgPlatform.download` call: `urlTailName`
is `urlparse(str(response.url)).path.split('/')[-1]`, the rest as for the
other adapters. -/
structure ArchiveDownloadEnv where
  status : Nat := 200
  urlTailName : List Char := []
  content : List Nat := []
  cwd : List Char := []

/-- `ArchiveOrgPlatform.download`. -/
def archiveDownload (info : DownloadInfo) (env : ArchiveDownloadEnv)
    (savePath : Option (List Char)) (returnContent : Bool) :
    Except AdapterFailure DownloadResult :=
  if !pyTruthy info.download_url then .error .missingDownloadUrl
  else if !isValidArchiveUrl (info.download_url.getD []) then .error .invalidDownloadUrl
  else if env.status ≠ 200 then .error (.httpError env.status)
  else
    let name0 := pyOrStr info.file_name
      (if env.urlTailName = [] then "unknown_book".data else env.urlTailName)
    let fileName := truncateFilename name0
    if returnContent then
      .ok { success := true, file_name := some fileName,
            file_size := some env.content.length, content := some env.content }
    else
      let dir := savePath.getD env.cwd
      .ok { success := true, file_path := some (dir ++ '/' :: fileName),
            file_name := some fileName, file_size := some env.content.length }

/-- The spec scenario's link list: two fast-partner links and one
slow-partner link. -/
def annasScenarioUrls : List AnnasUrl :=
  [{ title := "Fast Partner Server #1".data, url := "http://f1".data },
   { title := "Fast Partner Server #2".data, url := "http://f2".data },
   { title := "Slow Partner Server #1".data, url := "http://s1".data }]

/-- C8: with a non-empty fetched link list the download operation returns — it
does not raise — a non-success outcome with an error message listing the
links grouped by substring match into fast/slow/other tiers; on the scenario
list of 2 fast and 1 slow links the groups have sizes 2, 1 and 0 and the
message is exactly the two-tier listing. -/
theorem annas_download_link_listing (info : DownloadInfo) (urls : List AnnasUrl)
    (hid : pyTruthy info.book_id = true) (hurls : urls ≠ []) :
    (∃ r, annasDownload info urls = .ok r ∧ r.success = false ∧
      r.error_message = some
        ("Anna's Archive requires manual download. Available links:\n".data
          ++ List.intercalate "\n".data (annasLinksInfo urls))) ∧
    (annasFastLinks annasScenarioUrls).length = 2 ∧
    (annasSlowLinks annasScenarioUrls).length = 1 ∧
    (annasOtherLinks annasScenarioUrls).length = 0 ∧
    annasDownload { platform := Platform.annas_archive, book_id := some "m".data }
      annasScenarioUrls =
      .ok { success := false,
            error_message := some ("Anna's Archive requires manual download. Available links:\nFast links (paid):\n  1. http://f1\n  2. http://f2\nSlow links (free with wait):\n  1. http://s1").data } := by
  have h : annasDownload info urls =
      .ok { success := false,
            error_message := some
              ("Anna's Archive requires manual download. Available links:\n".data
                ++ List.intercalate "\n".data (annasLinksInfo urls)) } := by
    simp [annasDownload, hid, hurls]
  exact ⟨⟨_, h, rfl, rfl⟩, rfl, rfl, rfl, rfl⟩

/-- C8 witness: the scenario handle and link list, with the hypotheses
discharged concretely. -/
theorem annas_download_link_listing_witness :
    ∃ r, annasDownload { platform := Platform.annas_archive, book_id := some "m".data }
      annasScenarioUrls = .ok r ∧ r.success = false ∧
      r.error_message = some
        ("Anna's Archive requires manual download. Available links:\n".data
          ++ List.intercalate "\n".data (annasLinksInfo annasScenarioUrls)) :=
  (annas_download_link_listing
    { platform := Platform.annas_archive, book_id := some "m".data }
    annasScenarioUrls (by decide) (by decide)).1

/-! ## The DownloadResult invariant (C4) -/

/-- The spec's `DownloadOutcome` invariant: success ⇒ exactly one of
{saved path, in-memory content} populated, plus a file name; failure ⇒ an
error message. -/
def resultInvariant (r : DownloadResult) : Prop :=
  (r.success = true → r.file_path.isSome = !r.content.isSome ∧
    r.file_name.isSome = true) ∧
  (r.success = false → r.error_message.isSome = true)

/-- C4: every `DownloadResult` any adapter's download operation returns (as
opposed to raises) satisfies the invariant. -/
theorem download_result_invariant :
    (∀ info env savePath returnContent r,
      calibreDownload info env savePath returnContent = .ok r → resultInvariant r) ∧
    (∀ info env savePath returnContent r,
      archiveDownload info env savePath returnContent = .ok r → resultInvariant r) ∧
    (∀ loggedIn att info env savePath returnContent r,
      zDownload loggedIn att info env savePath returnContent = .ok r → resultInvariant r) ∧
    (∀ info env savePath returnContent r,
      (liber3Download info env savePath returnContent).1 = .ok r → resultInvariant r) ∧
    (∀ info urls r, annasDownload info urls = .ok r → resultInvariant r) := by
  refine ⟨?_, ?_, ?_, ?_, ?_⟩
  · intro info env savePath returnContent r h
    cases hc1 : pyTruthy info.download_url <;>
      cases hc2 : isValidCalibreUrl (info.download_url.getD []) <;>
      by_cases hs : env.status = 200 <;>
      cases hrc : returnContent <;>
      simp [calibreDownload, hc1, hc2, hs, hrc] at h <;>
      (subst h; simp [resultInvariant])
  · intro info env savePath returnContent r h
    cases hc1 : pyTruthy info.download_url <;>
      cases hc2 : isValidArchiveUrl (info.download_url.getD []) <;>
      by_cases hs : env.status = 200 <;>
      cases hrc : returnContent <;>
      simp [archiveDownload, hc1, hc2, hs, hrc] at h <;>
      (subst h; simp [resultInvariant])
  · intro loggedIn att info env savePath returnContent r h
    cases he : ensureLoggedIn loggedIn att with
    | error e => simp [zDownload, he] at h
    | ok n =>
      cases hb : (!pyTruthy info.book_id || !pyTruthy info.hash_id) <;>
        cases hd : env.bookDetailsTruthy <;>
        cases hdr : env.downloadResult <;>
        cases hrc : returnContent <;>
        simp [zDownload, he, hb, hd, hdr, hrc] at h <;>
        (subst h; simp [resultInvariant])
  · intro info env savePath returnContent r h
    cases hb : pyTruthy info.book_id
    · simp [liber3Download, hb] at h
    · cases hneed : (!pyTruthy (info.additional_params.getD {}).ipfs_cid ||
        !pyTruthy (info.additional_params.getD {}).extension)
      · by_cases hs : env.status = 200 <;> cases hrc : returnContent <;>
          simp [liber3Download, hb, hneed, hs, hrc] at h <;>
          (subst h; simp [resultInvariant])
      · cases hr : env.refetch with
        | none => simp [liber3Download, hb, hneed, hr] at h
        | some d =>
          cases hd2 : (!pyTruthy d.ipfs_cid || !pyTruthy d.extension)
          · by_cases hs : env.status = 200 <;> cases hrc : returnContent <;>
              simp [liber3Download, hb, hneed, hr, hd2, hs, hrc] at h <;>
              (subst h; simp [resultInvariant])
          · simp [liber3Download, hb, hneed, hr, hd2] at h
  · intro info urls r h
    cases hb : pyTruthy info.book_id <;> by_cases hu : urls = [] <;>
      simp [annasDownload, hb, hu] at h <;>
      (subst h; simp [resultInvariant])

/-- C4 witness: a concrete in-memory Calibre-Web download outcome satisfies
the invariant. -/
theorem download_result_invariant_witness :
    resultInvariant { success := true, file_name := some "unknown_book".data,
                      file_size := some 1, content := some [1] } :=
  download_result_invariant.1
    { platform := Platform.calibre_web,
      download_url := some "http://host/opds/download/1/epub/".data }
    { status := 200, dispositionName := none, content := [1], cwd := ".".data }
    none true _ rfl
